import Mathlib

/-!
Verification of the interface-field matching pipeline (`if_gen_tool`).

This file shallowly embeds the matching engine of the repository:

* `HANADBClient.parse_fields` (src/hana/hana_conn.py), the quote-repair pass;
* `ExcelProcessor._match_custom_fields`, `_process_batch`, `_match_fields`,
  `_parse_llm_response`, `_parse_notes`, `write_results` and the
  batch/merge logic of `_process_single` / `_process_in_batches`
  (src/excel/excel_processor.py);
* `odata_verify` (src/odata/odata.py).

Pure string/list manipulations are translated directly; the external
collaborators (HANA similarity search, the LLM, the OData service, the
worksheet) are passed in as explicit parameters, so that each theorem
quantifies over their possible answers.  Python strings are modelled as
Lean `String` (lists of characters), similarity scores as rationals.
-/

namespace IfGen

/-- Characters accepted by Python's `str.isspace` / regex `\s` in the
ASCII range (the repository's data is ASCII at the points modelled). -/
def isPySpace (c : Char) : Bool :=
  c = ' ' || c = '\t' || c = '\n' || c = '\r' || c = '\x0b' || c = '\x0c'

/-- Python `str.strip` on a character list: drop whitespace on both ends. -/
def pyStripList (cs : List Char) : List Char :=
  ((cs.dropWhile isPySpace).reverse.dropWhile isPySpace).reverse

/-- Python `str.strip` on a string. -/
def pyStrip (s : String) : String :=
  String.mk (pyStripList s.data)

/-- `HANADBClient.parse_fields` loop body (src/hana/hana_conn.py lines
306-344): walks the characters with an `in_string` flag; a quote met
inside a string closes it only when the next non-whitespace character is
`,`, `]` or `}` (or the string ends), and is otherwise emitted escaped as
`\"` while staying inside the string. -/
def parseFieldsAux : Bool → List Char → List Char
  | _, [] => []
  | inString, c :: rest =>
    if c = '"' then
      if inString then
        match rest.dropWhile isPySpace with
        | [] => '"' :: parseFieldsAux false rest
        | d :: _ =>
          if d = ',' || d = ']' || d = '}' then
            '"' :: parseFieldsAux false rest
          else
            '\\' :: '"' :: parseFieldsAux true rest
      else
        '"' :: parseFieldsAux true rest
    else
      c :: parseFieldsAux inString rest

/-- `HANADBClient.parse_fields`: the quote-repair pass over a raw catalog
content block. -/
def parse_fields (s : String) : String :=
  String.mk (parseFieldsAux false s.data)

/-- `InterfaceField` (src/models/data_models.py), as constructed by
`ExcelProcessor.extract_fields`: one input row of the source sheet.
All cell values are strings (empty when the cell is blank); `row_index`
is the worksheet row the field was read from. -/
structure InterfaceField where
  row_index : Nat := 0
  module : String := ""
  if_name : String := ""
  if_desc : String := ""
  field_name : String := ""
  key_flag : String := ""
  obligatory : String := ""
  data_type : String := ""
  field_id : String := ""
  length_total : String := ""
  length_dec : String := ""
  field_text : String := ""
  sample_value : String := ""
  remark : String := ""
  verify : String := ""
deriving DecidableEq

/-- The result dictionary produced for one input row by either matching
stage (the keys written by `_match_custom_fields` and
`_parse_llm_response`); a missing key reads as `""` through `dict.get`,
so the empty dictionary `{}` is modelled by `emptyMatchResult`.  The
`match` key (whose absent value is `None`) is modelled by the string
field `matchTag`, with `""` standing in for `None`. -/
structure MatchResult where
  table_id : String := ""
  field_id : String := ""
  field_name : String := ""
  key_flag : String := ""
  obligatory : String := ""
  data_type : String := ""
  length_total : String := ""
  length_dec : String := ""
  field_desc : String := ""
  sample_value : String := ""
  matchTag : String := ""
  notes : String := ""
  verify : String := ""
deriving DecidableEq

/-- The all-empty result dictionary `{}` substituted for a failed batch. -/
def emptyMatchResult : MatchResult := {}

/-- One record of the pre-approved custom-field catalog as returned by
the similarity search, together with its similarity score (modelled as a
rational number). -/
structure CustomMatch where
  table_name : String := ""
  fieldName : String := ""
  field_desc : String := ""
  is_key : Bool := false
  obligatory : String := ""
  data_type : String := ""
  length_total : String := ""
  length_dec : String := ""
  similarity : ℚ := 0
deriving DecidableEq

/-- One row of catalog context as assembled by `_prepare_llm_context`
(excel_processor.py lines 690-715); only its presence matters to the
matching logic modelled here (its content feeds the prompt, which is
external). -/
structure CandidateField where
  view_name : String := ""
  view_desc : String := ""
  field_name : String := ""
  field_desc : String := ""
  is_key : Bool := false
  data_type : String := ""
  length_total : String := ""
  length_dec : String := ""
deriving DecidableEq

/-- Python `int()` truncation toward zero on a rational. -/
def pyInt (q : ℚ) : Int :=
  Int.tdiv q.num q.den

/-- The query text built by `_match_custom_fields` (excel_processor.py
lines 560-566): the parts `[field_name, field_text, sample_value]` are
filtered by Python truthiness (empty strings dropped), each survivor is
stripped, and the results are joined with a single space. -/
def buildQuery (f : InterfaceField) : String :=
  let query_parts := [f.field_name, f.field_text, f.sample_value]
  String.intercalate " " ((query_parts.filter (fun p => p ≠ "")).map pyStrip)

/-- Modelled from the spec: `HANADBClient.search_custom_field_by_vector`
is called from `_match_custom_fields` but absent from src/.  Per the
spec (§4.1, §6, §8) it requests the single best custom-catalog record
with its similarity score for the query and accepts it only when the
score meets the threshold (`score >= threshold`); otherwise no record is
returned.  The catalog's best answer per query is abstracted as the
function `catalog`. -/
def search_custom_field_by_vector (catalog : String → Option CustomMatch)
    (field_query : String) (threshold : ℚ) : Option CustomMatch :=
  match catalog field_query with
  | some m => if m.similarity ≥ threshold then some m else none
  | none => none

/-- `self.excel_config.get("custom_field_threshold", 0.75)`
(excel_processor.py line 554): the threshold read from configuration
with default 0.75. -/
def custom_field_threshold (cfg : Option ℚ) : ℚ :=
  cfg.getD (3 / 4)

/-- The result dictionary built by `_match_custom_fields` for a matched
field (excel_processor.py lines 577-590). -/
def mkCustomResult (f : InterfaceField) (m : CustomMatch) : MatchResult :=
  { table_id := m.table_name
    field_id := m.fieldName
    field_name := m.field_desc
    key_flag := if m.is_key then "○" else ""
    obligatory := m.obligatory
    data_type := m.data_type
    length_total := m.length_total
    length_dec := m.length_dec
    field_desc := m.field_desc
    sample_value := f.sample_value
    matchTag := "Custom"
    notes := toString (pyInt (m.similarity * 100)) ++ "% - Custom field match" }

/-- The per-field loop of `ExcelProcessor._match_custom_fields`
(excel_processor.py lines 550-601): each input field is looked up in the
custom catalog with the given threshold; a hit is appended to the
matched list (paired with its result), a miss to the unmatched list,
both in input order. -/
def match_custom_fields (catalog : String → Option CustomMatch) (threshold : ℚ) :
    List InterfaceField → List (InterfaceField × MatchResult) × List InterfaceField
  | [] => ([], [])
  | f :: rest =>
    let (ms, us) := match_custom_fields catalog threshold rest
    match search_custom_field_by_vector catalog (buildQuery f) threshold with
    | some m => ((f, mkCustomResult f m) :: ms, us)
    | none => (ms, f :: us)

/-- `_match_custom_fields` with the threshold read from configuration at
the enclosing call, as the source does. -/
def match_custom_fields_cfg (catalog : String → Option CustomMatch)
    (cfg : Option ℚ) (fields : List InterfaceField) :
    List (InterfaceField × MatchResult) × List InterfaceField :=
  match_custom_fields catalog (custom_field_threshold cfg) fields

/-- The spec's description of the query string: field name, descriptive
text and sample value with empty and whitespace-only parts dropped and
the rest joined by single spaces (parts are stripped before the
emptiness test). -/
def spec_buildQuery (f : InterfaceField) : String :=
  let query_parts := [f.field_name, f.field_text, f.sample_value]
  String.intercalate " " ((query_parts.map pyStrip).filter (fun p => p ≠ ""))

/-- Python regex `$`: matches at the end of the input or just before a
final newline. -/
def reEnd (l : List Char) : Bool :=
  l = [] || l = ['\n']

/-- Pattern 1 of `_parse_notes`: `^(\d+%)\s*[-:]\s*(.+)$` matched with
`re.match` against the stripped text; on success returns
(group 1, group 2).  `\d+` must be a nonempty digit run followed by `%`;
`.` does not match a newline. -/
def notesPattern1 (cs : List Char) : Option (List Char × List Char) :=
  let digits := cs.takeWhile Char.isDigit
  if digits.isEmpty then none
  else
    match cs.dropWhile Char.isDigit with
    | '%' :: rest =>
      match rest.dropWhile isPySpace with
      | c :: rest2 =>
        if c = '-' || c = ':' then
          let body := rest2.dropWhile isPySpace
          let core := body.takeWhile (fun d => d ≠ '\n')
          if core.isEmpty then none
          else if reEnd (body.dropWhile (fun d => d ≠ '\n')) then
            some (digits ++ ['%'], core)
          else none
        else none
      | [] => none
    | _ => none

/-- The suffix `\s*\((\d+%)\)\s*$` of pattern 2; returns group 2. -/
def notesPattern2Suffix (l : List Char) : Option (List Char) :=
  match l.dropWhile isPySpace with
  | '(' :: l2 =>
    let digits := l2.takeWhile Char.isDigit
    if digits.isEmpty then none
    else
      match l2.dropWhile Char.isDigit with
      | '%' :: ')' :: l3 =>
        if reEnd (l3.dropWhile isPySpace) then some (digits ++ ['%']) else none
      | _ => none
  | _ => none

/-- Greedy search for pattern 2, `^(.+)\s*\((\d+%)\)\s*$`: the longest
newline-free nonempty prefix whose remainder matches the suffix pattern
wins (the regex engine maximises `(.+)` first). -/
def notesPattern2Aux (cs : List Char) : Nat → Option (List Char × List Char)
  | 0 => none
  | k + 1 =>
    let pre := cs.take (k + 1)
    if pre.all (fun d => d ≠ '\n') then
      match notesPattern2Suffix (cs.drop (k + 1)) with
      | some digits => some (pre, digits)
      | none => notesPattern2Aux cs k
    else notesPattern2Aux cs k

/-- Pattern 2 of `_parse_notes`: `^(.+)\s*\((\d+%)\)\s*$`; on success
returns (group 1, group 2). -/
def notesPattern2 (cs : List Char) : Option (List Char × List Char) :=
  notesPattern2Aux cs cs.length

/-- Pattern 3 of `_parse_notes`: `^(\d+%)\s*$`. -/
def notesPattern3 (cs : List Char) : Option (List Char) :=
  let digits := cs.takeWhile Char.isDigit
  if digits.isEmpty then none
  else
    match cs.dropWhile Char.isDigit with
    | '%' :: rest =>
      if reEnd (rest.dropWhile isPySpace) then some (digits ++ ['%']) else none
    | _ => none

/-- Pattern 4's `re.search(r"(\d+%)")`: the leftmost maximal digit run
immediately followed by `%`. -/
def searchPercent : List Char → Option (List Char)
  | [] => none
  | c :: rest =>
    if c.isDigit then
      match (c :: rest).dropWhile Char.isDigit with
      | '%' :: _ => some ((c :: rest).takeWhile Char.isDigit ++ ['%'])
      | _ => searchPercent rest
    else searchPercent rest

/-- One attempted match of `\s*\d+%\s*[-:()]*\s*` at the head of the
list; on success returns the remainder after the match. -/
def subPercentAt (l : List Char) : Option (List Char) :=
  if ((l.dropWhile isPySpace).takeWhile Char.isDigit).isEmpty then none
  else
    match (l.dropWhile isPySpace).dropWhile Char.isDigit with
    | '%' :: l2 =>
      some (((l2.dropWhile isPySpace).dropWhile
        (fun c => c = '-' || c = ':' || c = '(' || c = ')')).dropWhile isPySpace)
    | _ => none

/-- The global substitution `re.sub(r"\s*\d+%\s*[-:()]*\s*", " ", text)`
used by pattern 4: scan left to right, replacing each non-overlapping
match with a single space. -/
def subPercent (l : List Char) : List Char :=
  match hm : subPercentAt l with
  | some rem =>
    have hrem : rem.length < l.length := by
      unfold subPercentAt at hm
      split at hm
      · exact absurd hm (by simp)
      · split at hm
        · rename_i l2 heq
          rw [Option.some.injEq] at hm
          have h2 : rem.length ≤ l2.length := by
            rw [← hm]
            exact le_trans ((List.dropWhile_sublist _).length_le)
              (le_trans ((List.dropWhile_sublist _).length_le)
                ((List.dropWhile_sublist _).length_le))
          have h3 : ('%' :: l2).length ≤ (l.dropWhile isPySpace).length := by
            rw [← heq]
            exact (List.dropWhile_sublist _).length_le
          have h4 : (l.dropWhile isPySpace).length ≤ l.length :=
            (List.dropWhile_sublist _).length_le
          simp only [List.length_cons] at h3
          omega
        · exact absurd hm (by simp)
    ' ' :: subPercent rem
  | none =>
    match l with
    | [] => []
    | c :: rest => c :: subPercent rest
termination_by l.length
decreasing_by
  · exact hrem
  · simp

/-- `ExcelProcessor._parse_notes` (excel_processor.py lines 932-971):
extracts (percentage, description) from the free-text notes, trying in
order `^(\d+%)\s*[-:]\s*(.+)$`, `^(.+)\s*\((\d+%)\)\s*$` and
`^(\d+%)\s*$` on the stripped text, then `re.search(r"(\d+%)")` on the
raw text with the matched percentage region substituted away; with no
percentage at all the whole stripped text is the description. -/
def parse_notes (notes_text : String) : String × String :=
  if notes_text = "" then ("", "")
  else
    let cs := pyStripList notes_text.data
    match notesPattern1 cs with
    | some (p, d) => (String.mk p, String.mk (pyStripList d))
    | none =>
      match notesPattern2 cs with
      | some (d, p) => (String.mk p, String.mk (pyStripList d))
      | none =>
        match notesPattern3 cs with
        | some p => (String.mk p, "")
        | none =>
          match searchPercent notes_text.data with
          | some p =>
            (String.mk p, String.mk (pyStripList (subPercent notes_text.data)))
          | none => ("", String.mk (pyStripList notes_text.data))

/-- Python `str.split(sep)` for a single-character separator, over
character lists; the empty string splits to one empty part. -/
def splitOnChar (sep : Char) : List Char → List (List Char)
  | [] => [[]]
  | c :: rest =>
    let r := splitOnChar sep rest
    if c = sep then [] :: r
    else
      match r with
      | g :: gs => (c :: g) :: gs
      | [] => [[c]]

/-- The technical-field-id cleanup inline in `_parse_llm_response`
(excel_processor.py lines 892-901): a falsy id yields the empty string;
an id containing a dot is replaced by `raw_field_id.split(".")[-1]`, the
last dot-delimited segment; otherwise the id is returned unchanged. -/
def clean_field_id (raw_field_id : String) : String :=
  if raw_field_id = "" then ""
  else if raw_field_id.data.contains '.' then
    String.mk ((splitOnChar '.' raw_field_id.data).getLastD [])
  else raw_field_id

/-- A JSON scalar as it may arrive in the `key_flag` slot of an LLM
response row: a boolean, a string, or anything else. -/
inductive KeyFlagValue where
  | pyBool (b : Bool)
  | pyStr (s : String)
  | pyOther
deriving DecidableEq

/-- ASCII lower-casing of one character (Python `str.lower` on the
ASCII data handled here). -/
def asciiLower (c : Char) : Char :=
  if 'A' ≤ c && c ≤ 'Z' then Char.ofNat (c.toNat + 32) else c

/-- ASCII `str.lower`. -/
def strLower (s : String) : String :=
  String.mk (s.data.map asciiLower)

/-- One row of the structured LLM response (`function_response["review"]`)
as read by `_parse_llm_response` through `dict.get`: an absent key reads
as its default (`None` for `row_index` and `match`, `""` for the rest);
the `match` key's `None` is collapsed to `""` in `matchTag`. -/
structure LLMRow where
  row_index : Option Nat := none
  table_id : String := ""
  field_id : String := ""
  field_desc : String := ""
  key_flag : KeyFlagValue := KeyFlagValue.pyStr ""
  obligatory : String := ""
  data_type : String := ""
  length_total : String := ""
  length_dec : String := ""
  sample_value : String := ""
  matchTag : String := ""
  notes : String := ""
deriving DecidableEq

/-- The key-flag normalisation of `_parse_llm_response` (lines 882-890):
booleans map to the presence marker or empty, strings by case-insensitive
membership in {"true","y","yes","x"}, everything else to empty. -/
def key_flag_norm : KeyFlagValue → String
  | KeyFlagValue.pyBool b => if b then "○" else ""
  | KeyFlagValue.pyStr s =>
    if strLower s = "true" || strLower s = "y" || strLower s = "yes" ||
        strLower s = "x" then "○" else ""
  | KeyFlagValue.pyOther => ""

/-- The dict comprehension `{m["row_index"]: m for m in matches ...}`
followed by `match_map.get(row_index, {})`: rows without a row index are
dropped, later rows with the same index overwrite earlier ones. -/
def match_map (respRows : List LLMRow) (r : Nat) : Option LLMRow :=
  (respRows.filter (fun m => m.row_index = some r)).getLast?

/-- The per-input-field result built by `_parse_llm_response` (lines
882-925) from the looked-up response row (or the empty dict `{}` when
the row index is absent from the response).  The call to `_parse_notes`
in the source computes a (percentage, description) pair whose value is
discarded — the raw notes text is stored — so it does not appear here. -/
def buildLLMResult (mOpt : Option LLMRow) : MatchResult :=
  let m := mOpt.getD {}
  { table_id := m.table_id
    field_id := clean_field_id m.field_id
    field_name := m.field_desc
    key_flag := key_flag_norm m.key_flag
    obligatory := m.obligatory
    data_type := m.data_type
    length_total := m.length_total
    length_dec := m.length_dec
    field_desc := m.field_desc
    sample_value := m.sample_value
    matchTag := m.matchTag
    notes := m.notes }

/-- The field resets applied by `odata_verify` to a result whose
(table id, field id) pair came back with a nonzero return code
(src/odata/odata.py lines 76-84): table id, field id, data type, both
lengths, sample value and match tag are cleared and the notes replaced
with the configured rejection message `msg` (`ODATA_MESSAGE`); every
other field — the verification marker included — is left as it was. -/
def clearedResult (msg : String) (r : MatchResult) : MatchResult :=
  { r with
      table_id := ""
      field_id := ""
      data_type := ""
      length_total := ""
      length_dec := ""
      sample_value := ""
      matchTag := ""
      notes := msg }

/-- The row update of `odata_verify` (src/odata/odata.py lines 67-87)
for one result, given the service's answer `check` for the row's
(table id, field id) pair: return code 0 confirms (`verify := "√"`), a
nonzero return code clears the match fields and replaces the notes with
the rejection message (the marker assignment is commented out in the
source), and a pair absent from the answer is marked `"-"`. -/
def odata_row (check : String × String → Option Int) (msg : String)
    (r : MatchResult) : MatchResult :=
  match check (r.table_id, r.field_id) with
  | some rc =>
    if rc = 0 then { r with verify := "√" }
    else clearedResult msg r
  | none => { r with verify := "-" }

/-- `odata_verify` (src/odata/odata.py): when verification is enabled
and the service answered successfully (both collapsed into `flag`), each
result row is updated in place from the service's answer; otherwise the
results are returned unchanged. -/
def odata_verify (flag : Bool) (check : String × String → Option Int)
    (msg : String) (results : List MatchResult) : List MatchResult :=
  if flag then results.map (odata_row check msg) else results

/-- `_parse_llm_response` (excel_processor.py lines 842-930): one result
per input field, built from the response row with the field's row index,
then passed through `odata_verify`. -/
def parse_llm_response (flag : Bool) (check : String × String → Option Int)
    (msg : String) (respRows : List LLMRow) (input_fields : List InterfaceField) :
    List MatchResult :=
  odata_verify flag check msg
    (input_fields.map (fun f => buildLLMResult (match_map respRows f.row_index)))

/-- `_match_fields` / `_match_fields_with_context` (excel_processor.py
lines 773-817): empty input or absent context yield an empty result; an
empty (falsy) structured LLM response raises (modelled as `Except.error`
with the logged message); otherwise the response is parsed. -/
def match_fields (flag : Bool) (check : String × String → Option Int)
    (msg : String) (input_fields : List InterfaceField)
    (context : Option (List CandidateField)) (resp : Option (List LLMRow)) :
    Except String (List MatchResult) :=
  if input_fields.isEmpty then Except.ok []
  else
    match context with
    | none => Except.ok []
    | some _ =>
      match resp with
      | none => Except.error "LLM returned empty response for field matching"
      | some rows =>
        Except.ok (parse_llm_response flag check msg rows input_fields)

/-- `_process_batch` (excel_processor.py lines 512-533): the matcher
invocation for one batch; any exception is caught and replaced by a list
of empty results, one per input field of the batch. -/
def process_batch (flag : Bool) (check : String × String → Option Int)
    (msg : String) (batch_fields : List InterfaceField)
    (context : Option (List CandidateField)) (resp : Option (List LLMRow)) :
    List MatchResult :=
  match match_fields flag check msg batch_fields context resp with
  | Except.ok rs => rs
  | Except.error _ => batch_fields.map (fun _ => emptyMatchResult)

/-- The batch split of `_process_in_batches` (lines 424-427):
`unmatched_fields[i : i + batch_size]` for `i = 0, bs, 2*bs, ...`.
Modelled for a positive batch size (Python raises on step 0). -/
def chunkList (bs : Nat) : List α → List (List α)
  | [] => []
  | x :: xs =>
    if bs = 0 then []
    else (x :: xs).take bs :: chunkList bs ((x :: xs).drop bs)
termination_by l => l.length
decreasing_by
  simp only [List.length_drop, List.length_cons]
  omega

/-- One completed batch paired with its fields, as assembled at lines
467-470: `list(zip(batch_fields, batch_results))`. -/
def batch_piece (flag : Bool) (check : String × String → Option Int)
    (msg : String) (context : Option (List CandidateField))
    (resp : List InterfaceField → Option (List LLMRow))
    (b : List InterfaceField) : List (InterfaceField × MatchResult) :=
  b.zip (process_batch flag check msg b context (resp b))

/-- The final sort of both merge sites (lines 277 and 501):
`final_results.sort(key=lambda x: x[0].row_index)` — a stable sort
ascending by the input field's row position. -/
def sort_by_row (l : List (InterfaceField × MatchResult)) :
    List (InterfaceField × MatchResult) :=
  l.mergeSort (fun a b => a.1.row_index ≤ b.1.row_index)

/-- The merged result list produced before `write_results` by
`_process_in_batches` (lines 499-501; `_process_single` lines 272-277 is
the single-chunk instance): custom-matched pairs concatenated with the
batch pieces in the order the batches completed (`completedOrder`, setwise
the chunks of the unmatched fields), sorted ascending by row position. -/
def merged_results (catalog : String → Option CustomMatch) (threshold : ℚ)
    (flag : Bool) (check : String × String → Option Int) (msg : String)
    (context : Option (List CandidateField))
    (resp : List InterfaceField → Option (List LLMRow))
    (fields : List InterfaceField)
    (completedOrder : List (List InterfaceField)) :
    List (InterfaceField × MatchResult) :=
  sort_by_row ((match_custom_fields catalog threshold fields).1 ++
    (completedOrder.map (batch_piece flag check msg context resp)).flatten)

/-- The output-column slots written by `write_results`
(excel_processor.py lines 729-764), keys of
`column_mappings["output_columns"]`. -/
inductive OutCol where
  | field_name | field_id | key_flag | obligatory | table_id | data_type
  | length_total | length_dec | matchCol | notes | sample_value | verifyCol
deriving DecidableEq

/-- A worksheet: cell values addressed by (column letter, row number). -/
def Sheet : Type := String × Nat → String

/-- One openpyxl cell assignment `worksheet[f"{col}{row}"] = v`. -/
def setCell (ws : Sheet) (col : String) (row : Nat) (v : String) : Sheet :=
  fun p => if p = (col, row) then v else ws p

/-- The twelve cell assignments of `write_results` for one result row,
in source order (lines 729-764). -/
def writeRow (cols : OutCol → String) (m : MatchResult) (row : Nat)
    (ws : Sheet) : Sheet :=
  setCell (setCell (setCell (setCell (setCell (setCell (setCell (setCell
    (setCell (setCell (setCell (setCell ws
      (cols OutCol.field_name) row m.field_name)
      (cols OutCol.field_id) row m.field_id)
      (cols OutCol.key_flag) row m.key_flag)
      (cols OutCol.obligatory) row m.obligatory)
      (cols OutCol.table_id) row m.table_id)
      (cols OutCol.data_type) row m.data_type)
      (cols OutCol.length_total) row m.length_total)
      (cols OutCol.length_dec) row m.length_dec)
      (cols OutCol.matchCol) row m.matchTag)
      (cols OutCol.notes) row m.notes)
      (cols OutCol.sample_value) row m.sample_value)
      (cols OutCol.verifyCol) row m.verify

/-- `ExcelProcessor.write_results` (excel_processor.py lines 717-769):
for each (input field, result) pair, the output cells of the field's row
are written only when the field's prior verification marker is `""` or
`"-"`; otherwise the row is skipped entirely. -/
def write_results (cols : OutCol → String)
    (results : List (InterfaceField × MatchResult)) (ws : Sheet) : Sheet :=
  results.foldl
    (fun w p =>
      if p.1.verify = "" ∨ p.1.verify = "-" then
        writeRow cols p.2 p.1.row_index w
      else w)
    ws

/-- Concrete custom-catalog record used to instantiate theorems. -/
def sampleCustomMatch : CustomMatch :=
  { table_name := "ZTAB", fieldName := "MATNR", field_desc := "Material Number",
    is_key := true, similarity := 9 / 10 }

/-- Concrete catalog answering only the query "Material". -/
def sampleCatalog : String → Option CustomMatch :=
  fun q => if q = "Material" then some sampleCustomMatch else none

/-- Concrete input field that the sample catalog matches. -/
def sampleFieldA : InterfaceField := { row_index := 1, field_name := "Material" }

/-- Concrete input field that the sample catalog does not match. -/
def sampleFieldB : InterfaceField := { row_index := 2, field_name := "Plant" }

/-- A second unmatched concrete input field. -/
def sampleFieldD : InterfaceField := { row_index := 4, field_name := "Qty" }

/-- Concrete custom-catalog record whose score sits exactly at the
default threshold 0.75. -/
def boundaryMatch : CustomMatch :=
  { table_name := "ZTAB", fieldName := "MATNR", similarity := 3 / 4 }

/-- Concrete catalog answering "Material" with the boundary record. -/
def boundaryCatalog : String → Option CustomMatch :=
  fun q => if q = "Material" then some boundaryMatch else none

/-- Concrete field whose descriptive text is whitespace-only. -/
def wsField : InterfaceField :=
  { row_index := 3, field_name := "a", field_text := " ", sample_value := "b" }

/-- Concrete result row carrying a prior confirmation marker, whose
(table id, field id) pair the sample service reports invalid. -/
def rejSample : MatchResult :=
  { table_id := "T", field_id := "F", data_type := "CHAR",
    length_total := "10", length_dec := "0", sample_value := "X",
    matchTag := "CDS", notes := "95% - ok", verify := "√" }

/-- Concrete service answer: the pair ("T", "F") is invalid
(return code 1); every other pair is absent from the answer. -/
def rejCheck : String × String → Option Int :=
  fun p => if p = ("T", "F") then some 1 else none

/-- Concrete output-column layout with pairwise distinct letters. -/
def sampleCols : OutCol → String
  | OutCol.field_name => "N"
  | OutCol.field_id => "I"
  | OutCol.key_flag => "K"
  | OutCol.obligatory => "O"
  | OutCol.table_id => "T"
  | OutCol.data_type => "D"
  | OutCol.length_total => "L"
  | OutCol.length_dec => "E"
  | OutCol.matchCol => "M"
  | OutCol.notes => "X"
  | OutCol.sample_value => "S"
  | OutCol.verifyCol => "V"

/-- Concrete match result with only a field description. -/
def sampleResult : MatchResult := { field_name := "X" }

/-- The all-blank worksheet. -/
def emptySheet : Sheet := fun _ => ""

/-- A character list containing no quote character passes through the
repair loop unchanged, whatever the `in_string` state. -/
theorem parseFieldsAux_of_no_quote (cs : List Char) (h : ∀ c ∈ cs, c ≠ '"') :
    ∀ b, parseFieldsAux b cs = cs := by
  induction cs with
  | nil => intro b; rfl
  | cons c rest ih =>
    intro b
    have hc : c ≠ '"' := h c (List.mem_cons_self c rest)
    have hrest : ∀ c ∈ rest, c ≠ '"' := fun d hd => h d (List.mem_cons_of_mem c hd)
    simp only [parseFieldsAux, if_neg hc, ih hrest b]

/-- The custom-matching stage only redistributes the input fields: the
matched fields (first components) followed by the unmatched fields are a
permutation of the input list. -/
theorem match_custom_fields_perm (catalog : String → Option CustomMatch)
    (threshold : ℚ) (fields : List InterfaceField) :
    ((match_custom_fields catalog threshold fields).1.map Prod.fst ++
      (match_custom_fields catalog threshold fields).2).Perm fields := by
  induction fields with
  | nil => simp [match_custom_fields]
  | cons f rest ih =>
    simp only [match_custom_fields]
    cases h : search_custom_field_by_vector catalog (buildQuery f) threshold with
    | some m =>
      simpa using ih.cons f
    | none =>
      simp only [List.map]
      exact List.perm_middle.trans (ih.cons f)

/-- C2: for every list of input fields (with distinct row positions),
the custom-field matching stage returns `(matched, unmatched)` with
`|matched| + |unmatched| = |input|`, every input field appearing in
exactly one of the two lists (their disjoint union is a permutation of
the input), and the two lists disjoint by row position. -/
theorem match_custom_fields_partition (catalog : String → Option CustomMatch)
    (threshold : ℚ) (fields : List InterfaceField)
    (hnd : (fields.map InterfaceField.row_index).Nodup) :
    (match_custom_fields catalog threshold fields).1.length +
        (match_custom_fields catalog threshold fields).2.length = fields.length ∧
      ((match_custom_fields catalog threshold fields).1.map Prod.fst ++
        (match_custom_fields catalog threshold fields).2).Perm fields ∧
      ∀ p ∈ (match_custom_fields catalog threshold fields).1,
        ∀ g ∈ (match_custom_fields catalog threshold fields).2,
          p.1.row_index ≠ g.row_index := by
  have hp := match_custom_fields_perm catalog threshold fields
  refine ⟨?_, hp, ?_⟩
  · have := hp.length_eq
    simpa using this
  · have hmap := hp.map InterfaceField.row_index
    have hnd2 := hmap.nodup_iff.mpr hnd
    rw [List.map_append] at hnd2
    have hdisj := (List.nodup_append.mp hnd2).2.2
    intro p hp1 g hg1 heq
    exact hdisj
      (List.mem_map_of_mem InterfaceField.row_index
        (List.mem_map_of_mem Prod.fst hp1))
      (heq ▸ List.mem_map_of_mem InterfaceField.row_index hg1)

/-- Witness for C2 at a concrete two-field input (one matched, one
unmatched). -/
theorem match_custom_fields_partition_witness :
    (([sampleFieldA, sampleFieldB].map InterfaceField.row_index).Nodup) ∧
      ((match_custom_fields sampleCatalog (3 / 4)
            [sampleFieldA, sampleFieldB]).1.length +
          (match_custom_fields sampleCatalog (3 / 4)
            [sampleFieldA, sampleFieldB]).2.length =
          [sampleFieldA, sampleFieldB].length ∧
        ((match_custom_fields sampleCatalog (3 / 4)
            [sampleFieldA, sampleFieldB]).1.map Prod.fst ++
          (match_custom_fields sampleCatalog (3 / 4)
            [sampleFieldA, sampleFieldB]).2).Perm [sampleFieldA, sampleFieldB] ∧
        ∀ p ∈ (match_custom_fields sampleCatalog (3 / 4)
            [sampleFieldA, sampleFieldB]).1,
          ∀ g ∈ (match_custom_fields sampleCatalog (3 / 4)
            [sampleFieldA, sampleFieldB]).2,
            p.1.row_index ≠ g.row_index) :=
  ⟨by decide,
    match_custom_fields_partition sampleCatalog (3 / 4)
      [sampleFieldA, sampleFieldB] (by decide)⟩

/-- C3: the custom-field threshold is read from configuration at the
enclosing call (default 0.75); a candidate whose similarity score equals
the threshold is accepted into the matched list, and one strictly below
it is rejected (the field goes to unmatched). -/
theorem custom_threshold_boundary (catalog : String → Option CustomMatch)
    (cfg : Option ℚ) (f : InterfaceField) (cm : CustomMatch)
    (hcat : catalog (buildQuery f) = some cm) :
    custom_field_threshold none = 3 / 4 ∧
      (cm.similarity = custom_field_threshold cfg →
        match_custom_fields_cfg catalog cfg [f] = ([(f, mkCustomResult f cm)], [])) ∧
      (cm.similarity < custom_field_threshold cfg →
        match_custom_fields_cfg catalog cfg [f] = ([], [f])) := by
  refine ⟨rfl, ?_, ?_⟩
  · intro heq
    simp [match_custom_fields_cfg, match_custom_fields,
      search_custom_field_by_vector, hcat, heq, le_refl]
  · intro hlt
    simp [match_custom_fields_cfg, match_custom_fields,
      search_custom_field_by_vector, hcat, not_le.mpr hlt]

/-- Witness for C3: with no configured value the threshold defaults to
0.75, a score of exactly 0.75 is accepted, and a lower score would be
rejected. -/
theorem custom_threshold_boundary_witness :
    boundaryCatalog (buildQuery sampleFieldA) = some boundaryMatch ∧
      (custom_field_threshold none = 3 / 4 ∧
        (boundaryMatch.similarity = custom_field_threshold none →
          match_custom_fields_cfg boundaryCatalog none [sampleFieldA] =
            ([(sampleFieldA, mkCustomResult sampleFieldA boundaryMatch)], [])) ∧
        (boundaryMatch.similarity < custom_field_threshold none →
          match_custom_fields_cfg boundaryCatalog none [sampleFieldA] =
            ([], [sampleFieldA]))) :=
  ⟨rfl,
    custom_threshold_boundary boundaryCatalog none sampleFieldA boundaryMatch
      rfl⟩

/-- C8 counterexample: for a field whose descriptive text is a single
space, the code keeps the part (it is truthy), strips it to the empty
string and joins, producing `"a  b"` with consecutive spaces, whereas
the claimed description yields `"a b"`. -/
theorem buildQuery_whitespace_counterexample :
    buildQuery wsField = "a  b" ∧ spec_buildQuery wsField = "a b" := by
  constructor <;> decide

theorem pyStrip_empty : pyStrip "" = "" := rfl

/-- Dropping empty parts before stripping agrees with dropping
whitespace-only parts after stripping, when no part strips to empty
without being empty. -/
theorem filter_map_pyStrip (l : List String)
    (h : ∀ p ∈ l, pyStrip p = "" → p = "") :
    (l.filter (fun p => p ≠ "")).map pyStrip =
      (l.map pyStrip).filter (fun p => p ≠ "") := by
  induction l with
  | nil => rfl
  | cons p rest ih =>
    have hrest : ∀ q ∈ rest, pyStrip q = "" → q = "" :=
      fun q hq => h q (List.mem_cons_of_mem p hq)
    by_cases hp : p = ""
    · subst hp
      simpa [pyStrip_empty] using ih hrest
    · have hps : pyStrip p ≠ "" := fun hc => hp (h p (List.mem_cons_self p rest) hc)
      simpa [hp, hps] using ih hrest

/-- C8 amended: for every input field none of whose three query parts is
a nonempty whitespace-only string, the query string matches the claimed
description (empty/whitespace-only parts dropped, stripped parts joined
by single spaces); in general the code drops only parts that are empty
before stripping, so a whitespace-only part survives as an empty piece
and introduces consecutive (or leading/trailing) spaces. -/
theorem buildQuery_amended (f : InterfaceField)
    (h : ∀ p ∈ [f.field_name, f.field_text, f.sample_value],
        pyStrip p = "" → p = "") :
    buildQuery f = spec_buildQuery f := by
  simp only [buildQuery, spec_buildQuery, filter_map_pyStrip _ h]

/-- Witness for the amended C8 at a field with no whitespace-only part. -/
theorem buildQuery_amended_witness :
    (∀ p ∈ [sampleFieldA.field_name, sampleFieldA.field_text,
        sampleFieldA.sample_value], pyStrip p = "" → p = "") ∧
      buildQuery sampleFieldA = spec_buildQuery sampleFieldA :=
  ⟨by decide, buildQuery_amended sampleFieldA (by decide)⟩

/-- C5: the notes-parsing priorities on the spec's four examples:
`"85% - Good fit"` yields `("85%", "Good fit")` via the `"NN% - text"`
form, `"Good fit (85%)"` yields `("85%", "Good fit")` via the
`"text (NN%)"` form, a bare `"85%"` yields `("85%", "")`, and text with
no percentage is returned whole as the description. -/
theorem parse_notes_examples :
    parse_notes "85% - Good fit" = ("85%", "Good fit") ∧
      parse_notes "Good fit (85%)" = ("85%", "Good fit") ∧
      parse_notes "85%" = ("85%", "") ∧
      parse_notes "no percent here" = ("", "no percent here") := by
  refine ⟨?_, ?_, ?_, ?_⟩ <;> decide

/-- C6 counterexample: on the doubly-dotted id "A.B.C" the code keeps
only the last segment "C", not the claimed "B.C". -/
theorem clean_field_id_counterexample :
    clean_field_id "A.B.C" = "C" ∧ clean_field_id "A.B.C" ≠ "B.C" := by
  constructor <;> decide

/-- C6 amended: the cleanup keeps only the final dot-delimited segment,
stripping every leading segment (so "A.B" becomes "B" and "A.B.C"
becomes "C"); an id without a dot is returned unchanged. -/
theorem clean_field_id_amended :
    clean_field_id "A.B" = "B" ∧ clean_field_id "A.B.C" = "C" ∧
      ∀ s, ¬s.data.contains '.' → clean_field_id s = s := by
  refine ⟨by decide, by decide, ?_⟩
  intro s hs
  by_cases h0 : s = ""
  · simp [clean_field_id, h0]
  · simp only [clean_field_id, h0, if_neg, if_false, hs, Bool.false_eq_true,
      not_false_eq_true, ite_eq_right_iff]

/-- Witness for the amended C6 at the dot-free id "MATNR". -/
theorem clean_field_id_amended_witness :
    clean_field_id "A.B" = "B" ∧ clean_field_id "A.B.C" = "C" ∧
      clean_field_id "MATNR" = "MATNR" :=
  ⟨clean_field_id_amended.1, clean_field_id_amended.2.1,
    clean_field_id_amended.2.2 "MATNR" (by decide)⟩

/-- C4 counterexample: the quote-repair pass is not idempotent.  On the
raw block `"a"b"` the first pass escapes the interior quote, yielding
`"a\"b"`; a second pass does not recognise the backslash escape and
escapes the same quote again, yielding `"a\\"b"`. -/
theorem parse_fields_not_idempotent :
    parse_fields (parse_fields "\"a\"b\"") ≠ parse_fields "\"a\"b\"" ∧
      parse_fields "\"a\"b\"" = "\"a\\\"b\"" ∧
      parse_fields (parse_fields "\"a\"b\"") = "\"a\\\\\"b\"" := by
  refine ⟨?_, ?_, ?_⟩ <;> decide

/-- C4 amended: the quote-repair pass is idempotent only on inputs it
leaves unchanged; in particular any text without a quote character is a
fixed point (so re-running the pass on it changes nothing), while a pass
that inserted an escape produces text that a second pass alters again. -/
theorem parse_fields_idempotent_on_fixed_points (s : String) :
    (parse_fields s = s → parse_fields (parse_fields s) = parse_fields s) ∧
      ((∀ c ∈ s.data, c ≠ '"') → parse_fields s = s) := by
  constructor
  · intro h
    rw [h, h]
  · intro h
    show String.mk (parseFieldsAux false s.data) = s
    rw [parseFieldsAux_of_no_quote s.data h false]

/-- Witness for the amended C4 at the quote-free text "abc". -/
theorem parse_fields_idempotent_witness :
    parse_fields "abc" = "abc" ∧
      parse_fields (parse_fields "abc") = parse_fields "abc" :=
  ⟨(parse_fields_idempotent_on_fixed_points "abc").2 (by decide),
    (parse_fields_idempotent_on_fixed_points "abc").1
      ((parse_fields_idempotent_on_fixed_points "abc").2 (by decide))⟩

/-- C7: when the matcher invocation for a batch fails (any
`Except.error`, covering the empty-LLM-response exception), the batch
wrapper returns a list of empty match results of the batch's length —
one per input field — instead of propagating the error. -/
theorem process_batch_failure_isolation (flag : Bool)
    (check : String × String → Option Int) (msg : String)
    (batch : List InterfaceField) (context : Option (List CandidateField))
    (resp : Option (List LLMRow)) (e : String)
    (herr : match_fields flag check msg batch context resp = Except.error e) :
    process_batch flag check msg batch context resp =
        batch.map (fun _ => emptyMatchResult) ∧
      (process_batch flag check msg batch context resp).length = batch.length := by
  unfold process_batch
  rw [herr]
  simp

/-- Witness for C7: a one-field batch whose LLM call returned an empty
structured response. -/
theorem process_batch_failure_isolation_witness :
    match_fields false (fun _ => none) "m" [sampleFieldB] (some []) none =
        Except.error "LLM returned empty response for field matching" ∧
      (process_batch false (fun _ => none) "m" [sampleFieldB] (some []) none =
          [sampleFieldB].map (fun _ => emptyMatchResult) ∧
        (process_batch false (fun _ => none) "m" [sampleFieldB] (some [])
            none).length = [sampleFieldB].length) :=
  ⟨rfl,
    process_batch_failure_isolation false (fun _ => none) "m" [sampleFieldB]
      (some []) none "LLM returned empty response for field matching" rfl⟩

/-- With a present (non-`None`) context, the batch wrapper always
returns exactly one result per input field of the batch, whether the
matcher succeeded, returned no structured payload, or partially answered. -/
theorem process_batch_length (flag : Bool)
    (check : String × String → Option Int) (msg : String)
    (batch : List InterfaceField) (ctx : List CandidateField)
    (resp : Option (List LLMRow)) :
    (process_batch flag check msg batch (some ctx) resp).length = batch.length := by
  unfold process_batch match_fields
  by_cases hb : batch.isEmpty
  · rw [if_pos hb]
    simp [List.isEmpty_iff.mp hb]
  · rw [if_neg hb]
    cases resp with
    | none => simp
    | some rows =>
      simp [parse_llm_response, odata_verify]
      split <;> simp

/-- The contiguous chunks of a list concatenate back to the list
(positive chunk size). -/
theorem chunkList_flatten {α : Type} {bs : Nat} (hbs : bs ≠ 0) :
    ∀ l : List α, (chunkList bs l).flatten = l := by
  have H : ∀ n, ∀ l : List α, l.length ≤ n → (chunkList bs l).flatten = l := by
    intro n
    induction n with
    | zero =>
      intro l hl
      have hnil : l = [] := List.eq_nil_of_length_eq_zero (Nat.le_zero.mp hl)
      subst hnil
      simp [chunkList]
    | succ n ih =>
      intro l hl
      cases l with
      | nil => simp [chunkList]
      | cons x xs =>
        unfold chunkList
        rw [if_neg hbs]
        simp only [List.flatten_cons]
        rw [ih ((x :: xs).drop bs) ?_, List.take_append_drop]
        have hdrop : ((x :: xs).drop bs).length = (x :: xs).length - bs :=
          List.length_drop bs (x :: xs)
        simp only [List.length_cons] at hdrop hl ⊢
        omega
  exact fun l => H l.length l le_rfl

/-- The first components of a completed batch piece are exactly the
batch's fields (the results list always has the batch's length). -/
theorem batch_piece_map_fst (flag : Bool)
    (check : String × String → Option Int) (msg : String)
    (ctx : List CandidateField)
    (resp : List InterfaceField → Option (List LLMRow))
    (b : List InterfaceField) :
    (batch_piece flag check msg (some ctx) resp b).map Prod.fst = b := by
  unfold batch_piece
  exact List.map_fst_zip _ _
    (le_of_eq (process_batch_length flag check msg b ctx (resp b)).symm)

/-- C1: for every pipeline run over one file — any catalog and threshold
for the custom stage, any per-batch LLM responses, any batch size, and
any order in which the batches complete (a permutation of the chunks of
the unmatched fields) — the final merged result list is strictly
ascending by the input field's row position and carries exactly one
entry per input row (its input fields are a permutation of the input). -/
theorem merged_results_sorted_and_complete
    (catalog : String → Option CustomMatch) (threshold : ℚ) (flag : Bool)
    (check : String × String → Option Int) (msg : String)
    (ctx : List CandidateField)
    (resp : List InterfaceField → Option (List LLMRow))
    (bs : Nat) (fields : List InterfaceField)
    (completedOrder : List (List InterfaceField))
    (hbs : bs ≠ 0)
    (hnd : (fields.map InterfaceField.row_index).Nodup)
    (hord : completedOrder.Perm
      (chunkList bs (match_custom_fields catalog threshold fields).2)) :
    ((merged_results catalog threshold flag check msg (some ctx) resp fields
        completedOrder).map Prod.fst).Perm fields ∧
      (merged_results catalog threshold flag check msg (some ctx) resp fields
        completedOrder).Pairwise
        (fun a b => a.1.row_index < b.1.row_index) := by
  have hsortperm :
      (merged_results catalog threshold flag check msg (some ctx) resp fields
        completedOrder).Perm
        ((match_custom_fields catalog threshold fields).1 ++
          (completedOrder.map
            (batch_piece flag check msg (some ctx) resp)).flatten) := by
    unfold merged_results sort_by_row
    exact List.mergeSort_perm _ _
  have hfst :
      (((match_custom_fields catalog threshold fields).1 ++
          (completedOrder.map
            (batch_piece flag check msg (some ctx) resp)).flatten).map
        Prod.fst).Perm fields := by
    rw [List.map_append, List.map_flatten, List.map_map]
    have hid : completedOrder.map
        (List.map Prod.fst ∘ batch_piece flag check msg (some ctx) resp) =
        completedOrder := by
      have hpt : ∀ b ∈ completedOrder,
          (List.map Prod.fst ∘ batch_piece flag check msg (some ctx) resp) b =
            id b :=
        fun b _ => batch_piece_map_fst flag check msg ctx resp b
      rw [List.map_congr_left hpt, List.map_id]
    rw [hid]
    have hflat : completedOrder.flatten.Perm
        (match_custom_fields catalog threshold fields).2 := by
      have := hord.flatten
      rwa [chunkList_flatten hbs] at this
    exact ((hflat.append_left
      ((match_custom_fields catalog threshold fields).1.map Prod.fst)).trans
      (match_custom_fields_perm catalog threshold fields))
  have hperm1 :
      ((merged_results catalog threshold flag check msg (some ctx) resp fields
        completedOrder).map Prod.fst).Perm fields :=
    (hsortperm.map Prod.fst).trans hfst
  refine ⟨hperm1, ?_⟩
  have h1 := @List.sorted_mergeSort (InterfaceField × MatchResult)
    (fun a b => decide (a.1.row_index ≤ b.1.row_index))
    (fun a b c hab hbc => by
      simp only [decide_eq_true_eq] at hab hbc ⊢
      omega)
    (fun a b => by
      simp only [Bool.or_eq_true, decide_eq_true_eq]
      exact Nat.le_total _ _)
    ((match_custom_fields catalog threshold fields).1 ++
      (completedOrder.map (batch_piece flag check msg (some ctx) resp)).flatten)
  have hle :
      (merged_results catalog threshold flag check msg (some ctx) resp fields
        completedOrder).Pairwise
        (fun a b => a.1.row_index ≤ b.1.row_index) := by
    refine List.Pairwise.imp ?_ h1
    intro a b h
    exact of_decide_eq_true h
  have hnodup :
      ((merged_results catalog threshold flag check msg (some ctx) resp fields
        completedOrder).map
          (fun p : InterfaceField × MatchResult => p.1.row_index)).Nodup := by
    have hm := (hperm1.map InterfaceField.row_index).nodup_iff.mpr hnd
    rwa [List.map_map] at hm
  have hne :
      (merged_results catalog threshold flag check msg (some ctx) resp fields
        completedOrder).Pairwise
        (fun a b => a.1.row_index ≠ b.1.row_index) :=
    List.pairwise_map.mp hnodup
  exact (hle.and hne).imp (fun h => lt_of_le_of_ne h.1 h.2)

/-- Witness for C1: three rows, one custom-matched, two routed to
single-field batches whose LLM calls fail (empty responses); the merged
list still covers every row exactly once, in ascending row order. -/
theorem merged_results_sorted_and_complete_witness :
    (1 : Nat) ≠ 0 ∧
      ([sampleFieldA, sampleFieldB, sampleFieldD].map
        InterfaceField.row_index).Nodup ∧
      (chunkList 1 (match_custom_fields sampleCatalog (3 / 4)
          [sampleFieldA, sampleFieldB, sampleFieldD]).2).Perm
        (chunkList 1 (match_custom_fields sampleCatalog (3 / 4)
          [sampleFieldA, sampleFieldB, sampleFieldD]).2) ∧
      ((merged_results sampleCatalog (3 / 4) false (fun _ => none) "m"
          (some []) (fun _ => none) [sampleFieldA, sampleFieldB, sampleFieldD]
          (chunkList 1 (match_custom_fields sampleCatalog (3 / 4)
            [sampleFieldA, sampleFieldB, sampleFieldD]).2)).map
        Prod.fst).Perm [sampleFieldA, sampleFieldB, sampleFieldD] ∧
      (merged_results sampleCatalog (3 / 4) false (fun _ => none) "m"
          (some []) (fun _ => none) [sampleFieldA, sampleFieldB, sampleFieldD]
          (chunkList 1 (match_custom_fields sampleCatalog (3 / 4)
            [sampleFieldA, sampleFieldB, sampleFieldD]).2)).Pairwise
        (fun a b => a.1.row_index < b.1.row_index) := by
  have h := merged_results_sorted_and_complete sampleCatalog (3 / 4) false
    (fun _ => none) "m" [] (fun _ => none) 1
    [sampleFieldA, sampleFieldB, sampleFieldD]
    (chunkList 1 (match_custom_fields sampleCatalog (3 / 4)
      [sampleFieldA, sampleFieldB, sampleFieldD]).2)
    (by decide) (by decide) (List.Perm.refl _)
  exact ⟨by decide, by decide, List.Perm.refl _, h.1, h.2⟩

/-- C9 counterexample: a row whose pair is reported invalid has its
fields cleared and its notes replaced, but its verification marker is
NOT set to indicate rejection — here it keeps its prior confirmation
marker `"√"` unchanged (the assignment is commented out in the source). -/
theorem odata_verify_rejection_counterexample :
    (odata_verify true rejCheck "MSG" [rejSample]).map MatchResult.verify =
        ["√"] ∧
      (odata_verify true rejCheck "MSG" [rejSample]).map MatchResult.notes =
        ["MSG"] ∧
      (odata_verify true rejCheck "MSG" [rejSample]).map MatchResult.table_id =
        [""] := by
  refine ⟨?_, ?_, ?_⟩ <;> decide

/-- C9 amended: for every result row, validity (return code 0) sets the
marker to the confirmation sign, invalidity clears table id, field id,
data type, both lengths, sample value and match tag, and replaces the
notes with the fixed rejection message while leaving the verification
marker unchanged, and a pair absent from the service's answer (including
rows with no target table, which are never sent) is marked `"-"`. -/
theorem odata_verify_amended (check : String × String → Option Int)
    (msg : String) (results : List MatchResult) (r : MatchResult)
    (hr : r ∈ results) :
    (check (r.table_id, r.field_id) = some 0 →
        { r with verify := "√" } ∈ odata_verify true check msg results) ∧
      (∀ rc, check (r.table_id, r.field_id) = some rc → rc ≠ 0 →
        clearedResult msg r ∈ odata_verify true check msg results ∧
          (clearedResult msg r).verify = r.verify) ∧
      (check (r.table_id, r.field_id) = none →
        { r with verify := "-" } ∈ odata_verify true check msg results) := by
  refine ⟨?_, ?_, ?_⟩
  · intro h0
    have : odata_row check msg r = { r with verify := "√" } := by
      unfold odata_row
      rw [h0]
      simp
    exact this ▸ List.mem_map_of_mem (odata_row check msg) hr
  · intro rc hrc hne
    refine ⟨?_, rfl⟩
    have : odata_row check msg r = clearedResult msg r := by
      unfold odata_row
      rw [hrc]
      simp [hne]
    exact this ▸ List.mem_map_of_mem (odata_row check msg) hr
  · intro hnone
    have : odata_row check msg r = { r with verify := "-" } := by
      unfold odata_row
      rw [hnone]
    exact this ▸ List.mem_map_of_mem (odata_row check msg) hr

/-- Witness for the amended C9 at the concrete invalid row. -/
theorem odata_verify_amended_witness :
    rejSample ∈ [rejSample] ∧
      ((rejCheck (rejSample.table_id, rejSample.field_id) = some 0 →
          { rejSample with verify := "√" } ∈
            odata_verify true rejCheck "MSG" [rejSample]) ∧
        (∀ rc, rejCheck (rejSample.table_id, rejSample.field_id) = some rc →
          rc ≠ 0 →
          clearedResult "MSG" rejSample ∈
              odata_verify true rejCheck "MSG" [rejSample] ∧
            (clearedResult "MSG" rejSample).verify = rejSample.verify) ∧
        (rejCheck (rejSample.table_id, rejSample.field_id) = none →
          { rejSample with verify := "-" } ∈
            odata_verify true rejCheck "MSG" [rejSample])) :=
  ⟨by decide, odata_verify_amended rejCheck "MSG" [rejSample] rejSample
    (by decide)⟩

/-- A row write touches no cell of any other worksheet row. -/
theorem writeRow_other_row (cols : OutCol → String) (m : MatchResult)
    (row : Nat) (ws : Sheet) (col : String) (r : Nat) (h : r ≠ row) :
    writeRow cols m row ws (col, r) = ws (col, r) := by
  unfold writeRow setCell
  simp [Prod.ext_iff, h]

/-- C10: `write_results` only writes cells of rows whose input field
carries the prior verification marker `""` or `"-"`; any cell whose
value changed belongs to the row of some result pair with such a marker,
so rows with any other marker are left entirely unchanged. -/
theorem write_results_frame (cols : OutCol → String)
    (results : List (InterfaceField × MatchResult)) (ws : Sheet)
    (col : String) (row : Nat)
    (hch : write_results cols results ws (col, row) ≠ ws (col, row)) :
    ∃ p ∈ results, p.1.row_index = row ∧
      (p.1.verify = "" ∨ p.1.verify = "-") := by
  induction results generalizing ws with
  | nil => exact absurd rfl hch
  | cons p rest ih =>
    by_cases hv : p.1.verify = "" ∨ p.1.verify = "-"
    · have hstep : write_results cols (p :: rest) ws =
          write_results cols rest (writeRow cols p.2 p.1.row_index ws) := by
        unfold write_results
        simp [hv]
      rw [hstep] at hch
      by_cases hrest : write_results cols rest
          (writeRow cols p.2 p.1.row_index ws) (col, row) =
          writeRow cols p.2 p.1.row_index ws (col, row)
      · have hwr : writeRow cols p.2 p.1.row_index ws (col, row) ≠
            ws (col, row) := by
          rw [← hrest]
          exact hch
        have hrow : row = p.1.row_index := by
          by_contra hne
          exact hwr (writeRow_other_row cols p.2 p.1.row_index ws col row hne)
        exact ⟨p, List.mem_cons_self p rest, hrow.symm, hv⟩
      · obtain ⟨q, hq, hqrow, hqv⟩ := ih _ hrest
        exact ⟨q, List.mem_cons_of_mem p hq, hqrow, hqv⟩
    · have hstep : write_results cols (p :: rest) ws =
          write_results cols rest ws := by
        unfold write_results
        simp [hv]
      rw [hstep] at hch
      obtain ⟨q, hq, hqrow, hqv⟩ := ih ws hch
      exact ⟨q, List.mem_cons_of_mem p hq, hqrow, hqv⟩

/-- Witness for C10: on a blank sheet, writing one result whose input
field has the empty marker changes that row's field-name cell, and the
changed cell is accounted for by that pair. -/
theorem write_results_frame_witness :
    write_results sampleCols [(sampleFieldA, sampleResult)] emptySheet
        ("N", 1) ≠ emptySheet ("N", 1) ∧
      ∃ p ∈ [(sampleFieldA, sampleResult)], p.1.row_index = 1 ∧
        (p.1.verify = "" ∨ p.1.verify = "-") :=
  ⟨by decide,
    write_results_frame sampleCols [(sampleFieldA, sampleResult)] emptySheet
      "N" 1 (by decide)⟩

end IfGen
